import Mathlib

/-!
Shallow embedding of the command-interpretation core of the vibe-coded-jarvis
repository: the intent parser and command dispatcher
(src/services/voiceProcessor.js) and the summarization / prioritization
algorithms (src/services/aiService.js).

Modelling conventions:
* JavaScript strings are Lean `String`s; `String.prototype.includes`,
  `toLowerCase`, `trim` are modelled by `includes`, `lowerStr`, `String.trim`.
* Timestamps (`new Date(x)` values) are epoch milliseconds as `Nat`; the
  comparator subtractions `dateB - dateA` are carried out in `Int`.
  Local-time fields (`getHours`, `setHours(0,0,0,0)`) are rendered in UTC.
* `Array.prototype.sort(cmp)` (stable per ECMAScript 2019) is modelled by
  `List.insertionSort` over the relation `cmp a b <= 0`; a stable sort with
  respect to a consistent comparator is unique, so any stable sort models it.
* The regex-based entity captures of voiceProcessor.js are rendered as
  explicit leftmost-match scanners over `List Char`.
* `async` functions are pure; the fallible collaborator fetches
  (`fetchEmails`, `fetchCalendarEvents`, which live in emailService.js /
  calendarService.js and only produce mock data) enter the dispatcher as an
  `Except` parameter, so a `try/catch` around a fetch becomes a `match`.
-/

namespace Jarvis

/-- Character-list view of a string (used by the substring scanners). -/
def chars (s : String) : List Char := s.data

/-- Model of `String.prototype.toLowerCase` (ASCII-adequate). -/
def lowerStr (s : String) : String := String.mk (s.data.map Char.toLower)

/-- Whitespace trimming on a character list, from both ends (the model of
`String.prototype.trim`). -/
def trimChars (l : List Char) : List Char :=
  ((l.dropWhile Char.isWhitespace).reverse.dropWhile Char.isWhitespace).reverse

/-- Boolean contiguous-substring test on character lists. -/
def isInfixB (pat : List Char) : List Char → Bool
  | [] => pat.isPrefixOf []
  | c :: t => pat.isPrefixOf (c :: t) || isInfixB pat t

/-- Model of `String.prototype.includes pat`: `pat` occurs as a contiguous
substring. -/
def includes (s pat : String) : Bool := isInfixB (chars pat) (chars s)

/-- The normalization `command.toLowerCase().trim()` applied by
`parseCommand` before any matching. -/
def normalize (s : String) : String := String.mk (trimChars (chars (lowerStr s)))

/-! Leftmost-match scanning combinators used to render the JavaScript
regex captures of voiceProcessor.js. -/

/-- Try a scanner at every start position, left to right, returning the
first success: this is the leftmost-match rule of `String.prototype.match`. -/
def firstSome {α : Type} (f : List Char → Option α) : List Char → Option α
  | [] => f []
  | c :: t =>
    match f (c :: t) with
    | some r => some r
    | none => firstSome f t

/-- Consume a literal, returning the rest of the input. -/
def litP (pat : List Char) (s : List Char) : Option (List Char) :=
  if pat.isPrefixOf s then some (s.drop pat.length) else none

/-- Consume one-or-more whitespace characters, greedily (regex `\s+`). -/
def ws1 (s : List Char) : Option (List Char) :=
  match s with
  | [] => none
  | c :: t => if c.isWhitespace then some (t.dropWhile Char.isWhitespace) else none

/-- Consume one-or-more digits, greedily (regex `\d+`); returns the digits
and the rest. -/
def digits1 (s : List Char) : Option (List Char × List Char) :=
  match s with
  | [] => none
  | c :: t =>
    if c.isDigit then some (c :: t.takeWhile Char.isDigit, t.dropWhile Char.isDigit)
    else none

/-- Lazy capture with lookahead (regex `(.*?)(?=look)` where `.` excludes
newlines): the shortest prefix whose remainder satisfies `look`. -/
def lazyCapture (look : List Char → Bool) : List Char → Option (List Char)
  | [] => if look [] then some [] else none
  | c :: t =>
    if look (c :: t) then some []
    else if c = '\n' then none
    else (lazyCapture look t).map (fun p => c :: p)

/-- Lookahead `(?=\s+(?:k1|k2|...))`: whitespace then one of the keywords. -/
def lookWsKw (kws : List String) (s : List Char) : Bool :=
  match ws1 s with
  | some rest => kws.any (fun k => (chars k).isPrefixOf rest)
  | none => false

/-- Lookahead `(?=\s+(?:k1|...)|$)`: as `lookWsKw`, or end of input. -/
def lookWsKwOrEnd (kws : List String) (s : List Char) : Bool :=
  s.isEmpty || lookWsKw kws s

/-- Greedy `(.*)` capture: everything up to the next newline. -/
def restOfLine (s : List Char) : List Char := s.takeWhile (fun ch => ch != '\n')

/-- Render of `command.match(/respond:?\s*(.*)/i)`: text after the first
"respond", skipping an optional colon and whitespace (voiceProcessor.js
line 34); empty string when there is no trailing text. -/
def respondMessage (c : String) : String :=
  let cap := firstSome
    (fun suf => do
      let r1 ← litP (chars ("respond")) suf
      let r2 := match r1 with
        | ':' :: t => t
        | _ => r1
      let r3 := r2.dropWhile Char.isWhitespace
      pure (restOfLine r3))
    (chars c)
  String.mk (cap.getD [])

/-- Render of `command.match(/later\s+at\s+(\d+(?::\d+)?(?:\s*[ap]m)?)/i)`
(voiceProcessor.js line 42): the captured time group, if any. -/
def respondLaterTime (c : String) : Option String :=
  let cap := firstSome
    (fun suf => do
      let r1 ← litP (chars ("later")) suf
      let r2 ← ws1 r1
      let r3 ← litP (chars ("at")) r2
      let r4 ← ws1 r3
      let (d1, r5) ← digits1 r4
      let (d2, r6) :=
        match r5 with
        | ':' :: t =>
          match digits1 t with
          | some (ds, rr) => (':' :: ds, rr)
          | none => (([] : List Char), r5)
        | _ => (([] : List Char), r5)
      let (d3, _r7) :=
        let w := r6.takeWhile Char.isWhitespace
        let rest := r6.dropWhile Char.isWhitespace
        match rest with
        | a :: b :: rr =>
          if (a = 'a' || a = 'p') && b = 'm' then (w ++ [a, b], rr)
          else (([] : List Char), r6)
        | _ => (([] : List Char), r6)
      pure (d1 ++ d2 ++ d3))
    (chars c)
  cap.map String.mk

/-- Render of `command.match(/schedule\s+(.*?)(?=\s+(?:at|on|with|tomorrow|today|in|for))/i)`
(voiceProcessor.js line 70). -/
def scheduleWhat (c : String) : String :=
  let cap := firstSome
    (fun suf => do
      let r1 ← litP (chars ("schedule")) suf
      let r2 ← ws1 r1
      lazyCapture (lookWsKw ["at", "on", "with", "tomorrow", "today", "in", "for"]) r2)
    (chars c)
  String.mk (cap.getD [])

/-- Render of `command.match(/(?:at|on)\s+(.*?)(?=\s+(?:with|at|in|for)|$)/i)`
(voiceProcessor.js line 73). -/
def scheduleWhen (c : String) : String :=
  let cap := firstSome
    (fun suf => do
      let r1 ← match litP (chars ("at")) suf with
        | some r => some r
        | none => litP (chars ("on")) suf
      let r2 ← ws1 r1
      lazyCapture (lookWsKwOrEnd ["with", "at", "in", "for"]) r2)
    (chars c)
  String.mk (cap.getD [])

/-- Render of `command.match(/with\s+(.*?)(?=\s+(?:at|in|for)|$)/i)`
(voiceProcessor.js line 76). -/
def scheduleWithWhom (c : String) : String :=
  let cap := firstSome
    (fun suf => do
      let r1 ← litP (chars ("with")) suf
      let r2 ← ws1 r1
      lazyCapture (lookWsKwOrEnd ["at", "in", "for"]) r2)
    (chars c)
  String.mk (cap.getD [])

/-- Render of `command.match(/(?:at|in)\s+(.*?)(?=\s+for|$)/i)`
(voiceProcessor.js line 79). -/
def scheduleWhere (c : String) : String :=
  let cap := firstSome
    (fun suf => do
      let r1 ← match litP (chars ("at")) suf with
        | some r => some r
        | none => litP (chars ("in")) suf
      let r2 ← ws1 r1
      lazyCapture (lookWsKwOrEnd ["for"]) r2)
    (chars c)
  String.mk (cap.getD [])

/-- Render of `command.match(/reprioritize\s+(.*)/i)` (voiceProcessor.js
line 88). -/
def reprioritizeId (c : String) : String :=
  let cap := firstSome
    (fun suf => do
      let r1 ← litP (chars ("reprioritize")) suf
      let r2 ← ws1 r1
      pure (restOfLine r2))
    (chars c)
  String.mk (cap.getD [])

/-- The `COMMAND_TYPES` tags of voiceProcessor.js together with the
`payload` each branch of `parseCommand` attaches. -/
inductive Cmd where
  | READ_EMAILS
  | READ_AGENDA
  | IGNORE
  | RESPOND (message : String)
  | RESPOND_LATER (time : Option String)
  | SET_IMPORTANT (isImportant : Bool)
  | CALENDAR_RESPONSE (response : String)
  | SCHEDULE (what : String) (whenAt : String) (withWhom : String) (whereAt : String)
  | REPRIORITIZE (id : String)
  | UNKNOWN
deriving DecidableEq

/-- The `response` entity of the `CALENDAR_RESPONSE` branch
(voiceProcessor.js lines 59-62): a chain of non-exclusive `if` statements
overwriting a mutable `response` variable initially `accept`. -/
def calendarResponseOf (c : String) : String :=
  let r := "accept"
  let r := if includes c ("decline") then "decline" else r
  let r := if includes c ("maybe") then "maybe" else r
  let r := if includes c ("find me a new time") then "reschedule" else r
  r

/-- Model of `parseCommand` (voiceProcessor.js lines 19-98): lower-case and
trim, then an ordered cascade of substring tests, first match wins. -/
def parseCommand (command : String) : Cmd :=
  let c := normalize command
  if includes c ("read me my emails") || includes c ("read my emails") then
    .READ_EMAILS
  else if includes c ("tell me what i have to do today") ||
      includes c ("what do i have to do today") ||
      includes c ("read my agenda") ||
      includes c ("read my calendar") then
    .READ_AGENDA
  else if includes c ("ignore") then
    .IGNORE
  else if includes c ("respond") && !(includes c ("respond later")) then
    .RESPOND (respondMessage c)
  else if includes c ("respond later") then
    .RESPOND_LATER (respondLaterTime c)
  else if includes c ("mark") && (includes c ("important") || includes c ("not important")) then
    .SET_IMPORTANT (!(includes c ("not important")))
  else if includes c ("accept") || includes c ("decline") ||
      includes c ("maybe") || includes c ("find me a new time") then
    .CALENDAR_RESPONSE (calendarResponseOf c)
  else if includes c ("schedule") then
    .SCHEDULE (scheduleWhat c) (scheduleWhen c) (scheduleWithWhom c) (scheduleWhere c)
  else if includes c ("reprioritize") then
    .REPRIORITIZE (reprioritizeId c)
  else
    .UNKNOWN

/-! Data model shared by aiService.js and voiceProcessor.js. -/

/-- The sender object `{name, email}` of an email. -/
structure Contact where
  name : String
  email : String
deriving DecidableEq

/-- An email item as read by aiService.js. The JS field `from` (a Lean
keyword) is called `sender` here; it may be absent (`a.from &&` guards in
the comparator). `timestamp` is epoch milliseconds. -/
structure Email where
  sender : Option Contact
  subject : String
  body : String
  isRead : Bool
  isImportant : Bool
  hasAttachments : Bool
  timestamp : Nat
deriving DecidableEq

/-- A calendar event as read by aiService.js. The JS field `end` (a Lean
keyword) is called `stop` here; `start`/`stop` are epoch milliseconds.
Optional JS fields (`location`, `description`) are `Option`s; an absent
`attendees` array is the empty list. -/
structure Event where
  title : String
  start : Nat
  stop : Nat
  location : Option String
  description : Option String
  attendees : List String
  responseStatus : String
  importance : Option String
deriving DecidableEq

/-- User settings (preferences) as read by the core: `priorityContacts` is
a list of email strings, `summaryLength` one of concise / medium /
detailed / everything, `reminderDefaultTime` minutes for reminders. -/
structure Settings where
  priorityContacts : List String
  summaryLength : String
  reminderDefaultTime : Nat
deriving DecidableEq

/-! Time and string helpers of aiService.js. -/

/-- Model of `formatTime` (aiService.js lines 288-299): 12-hour clock with
lowercase am/pm and zero-padded minutes. JS uses local `getHours`; the
model renders the hour and minute fields in UTC. -/
def formatTime (t : Nat) : String :=
  let hours := t / 3600000 % 24
  let minutes := t / 60000 % 60
  let ampm := if hours >= 12 then "pm" else "am"
  let hours12 := if hours % 12 = 0 then 12 else hours % 12
  let minutesStr := if minutes < 10 then "0" ++ toString minutes else toString minutes
  toString hours12 ++ ":" ++ minutesStr ++ ampm

/-- Model of `calculateDuration` (aiService.js lines 307-325) for
`stop >= start`: `Math.round((endDate - startDate) / 60000)` equals
`(diff + 30000) / 60000` in integer arithmetic for nonnegative diff. -/
def calculateDuration (start stop : Nat) : String :=
  let durationMinutes := (stop - start + 30000) / 60000
  if durationMinutes < 60 then
    toString durationMinutes ++ " minutes"
  else
    let hours := durationMinutes / 60
    let minutes := durationMinutes % 60
    if minutes = 0 then
      toString hours ++ " hour" ++ (if hours = 1 then "" else "s")
    else
      toString hours ++ " hour" ++ (if hours = 1 then "" else "s") ++ " and " ++
        toString minutes ++ " minute" ++ (if minutes = 1 then "" else "s")

/-! The priority ranker `prioritizeItems` (aiService.js lines 34-56). -/

/-- Whether an item's sender is a priority contact:
`a.from && settings.priorityContacts.includes(a.from.email)`. -/
def isPriorityContact (s : Settings) (a : Email) : Bool :=
  match a.sender with
  | some c => s.priorityContacts.contains c.email
  | none => false

/-- The three-key comparator passed to `sort` by `prioritizeItems`
(aiService.js lines 39-53): priority contact, then importance flag, then
`new Date(b.timestamp) - new Date(a.timestamp)` (newer first). -/
def compareItems (s : Settings) (a b : Email) : Int :=
  let aPriorityContact := isPriorityContact s a
  let bPriorityContact := isPriorityContact s b
  if aPriorityContact && !bPriorityContact then -1
  else if !aPriorityContact && bPriorityContact then 1
  else if a.isImportant && !b.isImportant then -1
  else if !a.isImportant && b.isImportant then 1
  else (b.timestamp : Int) - (a.timestamp : Int)

/-- The non-strict order induced by the comparator: `a` may come before `b`
exactly when `compareItems s a b <= 0`. -/
def itemLe (s : Settings) (a b : Email) : Prop := compareItems s a b ≤ 0

instance (s : Settings) (a b : Email) : Decidable (itemLe s a b) :=
  inferInstanceAs (Decidable (compareItems s a b ≤ 0))

/-- Model of `prioritizeItems` (aiService.js lines 34-56):
`[...items].sort(comparator)`. `Array.prototype.sort` is a stable sort of a
copy; the unique stable sort by a consistent comparator is modelled with
`List.insertionSort`. -/
def prioritizeItems (items : List Email) (s : Settings) : List Email :=
  List.insertionSort (itemLe s) items

/-! The email summarizer `generateEmailSummary` (aiService.js lines 64-127). -/

/-- Unread count: `emails.filter(email => !email.isRead).length`. -/
def unreadCount (emails : List Email) : Nat :=
  (emails.filter (fun email => !email.isRead)).length

/-- Important count: `emails.filter(email => email.isImportant).length`. -/
def importantCount (emails : List Email) : Nat :=
  (emails.filter (fun email => email.isImportant)).length

/-- The intro of the email summary (aiService.js lines 72-76): the
important-count clause is appended only when `importantCount > 0`. -/
def emailOpening (emails : List Email) : String :=
  let summary := "You have " ++ toString emails.length ++ " emails in your inbox, " ++
    toString (unreadCount emails) ++ " unread"
  let summary :=
    if importantCount emails > 0 then
      summary ++ ", with " ++ toString (importantCount emails) ++ " marked as important"
    else summary
  summary ++ ". Would you like to hear about them?\n\n"

/-- The importance-then-recency comparator used to re-sort emails before
truncation (aiService.js lines 82-86). -/
def irCmp (a b : Email) : Int :=
  if a.isImportant && !b.isImportant then -1
  else if !a.isImportant && b.isImportant then 1
  else (b.timestamp : Int) - (a.timestamp : Int)

/-- The non-strict order induced by `irCmp`. -/
def irLe (a b : Email) : Prop := irCmp a b ≤ 0

instance (a b : Email) : Decidable (irLe a b) :=
  inferInstanceAs (Decidable (irCmp a b ≤ 0))

/-- The per-level limits object `{concise: 3, medium: 5, detailed: 7}`
(aiService.js lines 89-93); `none` models an absent key (`limits[x]`
undefined). -/
def summaryLimit (len : String) : Option Nat :=
  match len with
  | "concise" => some 3
  | "medium" => some 5
  | "detailed" => some 7
  | _ => none

/-- The `emailsToSummarize` selection (aiService.js lines 79-98): for any
`summaryLength` other than `everything` the copy is sorted by importance
and recency and sliced to the limit (`slice(0, undefined)` — an
unrecognized level — copies the whole sorted array); for `everything` the
input list is used unchanged, with no re-sort. -/
def emailsToSummarize (emails : List Email) (s : Settings) : List Email :=
  if s.summaryLength ≠ "everything" then
    let sorted := List.insertionSort irLe emails
    match summaryLimit s.summaryLength with
    | some n => sorted.take n
    | none => sorted
  else emails

/-- Sender display name `email.from.name` (aiService.js line 107). A
missing `from` would make the JS throw a TypeError (caught by the
dispatcher); the model renders it as the empty string, a case no claim
exercises. -/
def senderName (e : Email) : String :=
  match e.sender with
  | some c => c.name
  | none => ""

/-- Body preview truncated to 100 characters with a trailing ellipsis
(aiService.js lines 112-114). -/
def bodyPreview (b : String) : String :=
  if b.length > 100 then String.mk (b.data.take 100) ++ "..." else b

/-- One narrated email line with its conditional markers and, in
detailed/everything verbosity, the body preview (aiService.js lines
101-121). -/
def emailLine (s : Settings) (index : Nat) (email : Email) : String :=
  let timeString := formatTime email.timestamp
  let importanceMarker := if email.isImportant then " (Important)" else ""
  let readStatus := if email.isRead then "" else " (Unread)"
  let attachmentInfo := if email.hasAttachments then " (Has attachments)" else ""
  let nm := senderName email
  toString (index + 1) ++ ". From " ++ nm ++ " at " ++ timeString ++ ", subject: " ++
    email.subject ++ importanceMarker ++ readStatus ++ attachmentInfo ++ ".\n" ++
  (if s.summaryLength = "detailed" || s.summaryLength = "everything" then
    "   Preview: " ++ bodyPreview email.body ++ "\n"
  else "") ++
  "\n"

/-- The closing interaction hint of the email summary (aiService.js
line 124). -/
def emailClosing : String :=
  "You can say \"ignore\", \"respond now\", \"respond later\", or \"mark as important\" after each email."

/-- Model of `generateEmailSummary` (aiService.js lines 64-127). -/
def generateEmailSummary (emails : List Email) (s : Settings) : String :=
  emailOpening emails ++
  String.join ((emailsToSummarize emails s).enum.map (fun p => emailLine s p.1 p.2)) ++
  emailClosing

/-! Schedule-conflict detection `findScheduleConflicts` (aiService.js
lines 251-281). -/

/-- A detected conflict. The JS object also stores a `duration` field in
fractional (floating-point) minutes, unused by the summary text and not
modelled. -/
structure Conflict where
  event1 : Event
  event2 : Event
  overlapStart : Nat
  overlapEnd : Nat
deriving DecidableEq

/-- The overlap test and conflict record of the inner loop body
(aiService.js lines 265-275). -/
def overlapOf (event1 event2 : Event) : Option Conflict :=
  if event1.start < event2.stop && event2.start < event1.stop then
    some { event1 := event1, event2 := event2,
           overlapStart := if event1.start > event2.start then event1.start else event2.start,
           overlapEnd := if event1.stop < event2.stop then event1.stop else event2.stop }
  else none

/-- Model of `findScheduleConflicts` (aiService.js lines 251-281): the
double loop `for i; for j = i+1` pushing a conflict for each overlapping
pair, in traversal order. -/
def findScheduleConflicts : List Event → List Conflict
  | [] => []
  | e :: rest => rest.filterMap (overlapOf e) ++ findScheduleConflicts rest

/-! The calendar summarizer `generateCalendarSummary` (aiService.js
lines 135-244). Unlike the email summarizer it reads the wall clock
(`new Date()` at line 142); the model takes that moment as an explicit
`now` parameter (epoch milliseconds). -/

/-- Milliseconds per day. -/
def msPerDay : Nat := 86400000

/-- The `today.setHours(0, 0, 0, 0)` midnight truncation, rendered in
UTC. -/
def startOfDay (t : Nat) : Nat := t - t % msPerDay

/-- The ascending-start comparator `new Date(a.start) - new Date(b.start)`
(aiService.js lines 137-139). -/
def eventStartCmp (a b : Event) : Int := (a.start : Int) - (b.start : Int)

/-- The non-strict order induced by `eventStartCmp`. -/
def eventStartLe (a b : Event) : Prop := eventStartCmp a b ≤ 0

instance (a b : Event) : Decidable (eventStartLe a b) :=
  inferInstanceAs (Decidable (eventStartCmp a b ≤ 0))

/-- The optional location suffix of aiService.js line 170: a ternary on
`event.location` (JS truthiness: an empty string is falsy). -/
def locationSuffix (e : Event) : String :=
  match e.location with
  | some l => if l = "" then "" else " at " ++ l
  | none => ""

/-- One narrated today-event line (aiService.js lines 166-194), including
the attendee and description details in detailed/everything verbosity.
The JS also computes an unused `endTime` constant. -/
def todayEventLine (s : Settings) (index : Nat) (event : Event) : String :=
  let startTime := formatTime event.start
  let duration := calculateDuration event.start event.stop
  let responseNote :=
    if event.responseStatus = "needsAction" then
      " (You haven\x27t responded to this invitation yet)"
    else ""
  toString (index + 1) ++ ". At " ++ startTime ++ ": " ++ event.title ++
    locationSuffix event ++ ", for " ++ duration ++ responseNote ++ ".\n" ++
  (if s.summaryLength = "detailed" || s.summaryLength = "everything" then
    (if event.attendees.length > 0 then
      "   With: " ++ String.intercalate (", ") event.attendees ++ "\n"
    else "") ++
    (match event.description with
     | some d => if d = "" then "" else "   Details: " ++ bodyPreview d ++ "\n"
     | none => "")
  else "") ++
  "\n"

/-- One narrated tomorrow-event line (aiService.js lines 204-209). -/
def tomorrowEventLine (index : Nat) (event : Event) : String :=
  toString (index + 1) ++ ". At " ++ formatTime event.start ++ ": " ++ event.title ++
    locationSuffix event ++ ".\n"

/-- One conflict line of the conflict section (aiService.js lines
219-221). -/
def conflictLine (index : Nat) (conflict : Conflict) : String :=
  toString (index + 1) ++ ". \"" ++ conflict.event1.title ++ "\" and \"" ++
    conflict.event2.title ++ "\" overlap at " ++ formatTime conflict.overlapStart ++ ".\n"

/-- The closing interaction hint of the calendar summary (aiService.js
line 241). -/
def calendarClosing : String :=
  "You can say \"accept\", \"decline\", \"maybe\", or \"find me a new time\" for any meeting that needs a response."

/-- Model of `generateCalendarSummary` (aiService.js lines 135-244), with
the wall-clock moment `new Date()` passed in as `now`. -/
def generateCalendarSummary (now : Nat) (events : List Event) (s : Settings) : String :=
  let sortedEvents := List.insertionSort eventStartLe events
  let today := startOfDay now
  let tomorrow := today + msPerDay
  let dayAfterTomorrow := today + 2 * msPerDay
  let todayEvents := sortedEvents.filter (fun event => today ≤ event.start && event.start < tomorrow)
  let tomorrowEvents := sortedEvents.filter
    (fun event => tomorrow ≤ event.start && event.start < dayAfterTomorrow)
  let todaySection :=
    if todayEvents.length > 0 then
      "You have " ++ toString todayEvents.length ++ " event" ++
        (if todayEvents.length = 1 then "" else "s") ++ " scheduled for today.\n\n" ++
      String.join (todayEvents.enum.map (fun p => todayEventLine s p.1 p.2))
    else
      "You have no events scheduled for today.\n\n"
  let tomorrowSection :=
    if s.summaryLength ≠ "concise" && tomorrowEvents.length > 0 then
      "For tomorrow, you have " ++ toString tomorrowEvents.length ++ " event" ++
        (if tomorrowEvents.length = 1 then "" else "s") ++ " scheduled.\n\n" ++
      (if s.summaryLength ≠ "medium" then
        String.join (tomorrowEvents.enum.map (fun p => tomorrowEventLine p.1 p.2)) ++ "\n"
      else "")
    else ""
  let conflicts := findScheduleConflicts sortedEvents
  let conflictSection :=
    if conflicts.length > 0 then
      "Attention: I found the following schedule conflicts:\n" ++
      String.join (conflicts.enum.map (fun p => conflictLine p.1 p.2)) ++ "\n"
    else ""
  let prioritySection :=
    if s.summaryLength ≠ "concise" then
      let highPriorityEvents := sortedEvents.filter (fun event => event.importance = some ("high"))
      if highPriorityEvents.length > 0 then
        "Top priorities for today:\n" ++
        String.join (((highPriorityEvents.filter (fun event => event.start < tomorrow)).enum).map
          (fun p => toString (p.1 + 1) ++ ". " ++ p.2.title ++ " at " ++
            formatTime p.2.start ++ ".\n")) ++ "\n"
      else ""
    else ""
  todaySection ++ tomorrowSection ++ conflictSection ++ prioritySection ++ calendarClosing

/-! The summarizer entry point and the command dispatcher
(aiService.js lines 11-26, voiceProcessor.js lines 100-238). -/

/-- The `data` of a `summarizeWithAI` call; the JS passes a separate
`type` string (`emails` or `calendar`) next to the array, rendered here as
the constructor tag. -/
inductive SummData where
  | emails (data : List Email)
  | calendar (data : List Event)
deriving DecidableEq

/-- Model of `summarizeWithAI` (aiService.js lines 11-26), dispatching on
the data type. `now` is the wall-clock moment the calendar branch reads. -/
def summarizeWithAI (now : Nat) (data : SummData) (settings : Settings) : String :=
  match data with
  | .emails d => generateEmailSummary d settings
  | .calendar d => generateCalendarSummary now d settings

/-- A dispatcher response `{message}`. -/
structure Response where
  message : String
deriving DecidableEq

/-- The fixed apology of `handleReadEmails` (voiceProcessor.js line 154). -/
def emailApology : String :=
  "I\x27m sorry, I couldn\x27t read your emails at this time. Please try again later."

/-- The fixed apology of `handleReadAgenda` (voiceProcessor.js line 175). -/
def agendaApology : String :=
  "I\x27m sorry, I couldn\x27t read your agenda at this time. Please try again later."

/-- Model of `handleReadEmails` (voiceProcessor.js lines 138-157): the
fetch outcome enters as an `Except`; the catch branch returns the fixed
apology. -/
def handleReadEmails (now : Nat) (fetched : Except String (List Email))
    (settings : Settings) : Response :=
  match fetched with
  | .ok emails => { message := summarizeWithAI now (.emails emails) settings }
  | .error _ => { message := emailApology }

/-- Model of `handleReadAgenda` (voiceProcessor.js lines 159-178). -/
def handleReadAgenda (now : Nat) (fetched : Except String (List Event))
    (settings : Settings) : Response :=
  match fetched with
  | .ok events => { message := summarizeWithAI now (.calendar events) settings }
  | .error _ => { message := agendaApology }

/-- Model of `handleRespond` (voiceProcessor.js lines 180-186). -/
def handleRespond (message : String) : Response :=
  { message := "I\x27ve drafted your response: \"" ++ message ++
      "\". Would you like me to send it now?" }

/-- Model of `handleRespondLater` (voiceProcessor.js lines 188-194). -/
def handleRespondLater (time : Option String) (settings : Settings) : Response :=
  let t := time.getD ("in " ++ toString settings.reminderDefaultTime ++ " minutes")
  { message := "I\x27ll remind you to respond to this " ++ t ++ "." }

/-- Model of `handleSetImportant` (voiceProcessor.js lines 196-202). -/
def handleSetImportant (isImportant : Bool) : Response :=
  let status := if isImportant then "important" else "not important"
  { message := "I\x27ve marked this as " ++ status ++ "." }

/-- The `responseMap` object of `handleCalendarResponse` (voiceProcessor.js
lines 205-210); `none` models an absent key. -/
def responseMap : String → Option String
  | "accept" => some ("I\x27ve accepted the meeting invitation.")
  | "decline" => some ("I\x27ve declined the meeting invitation.")
  | "maybe" => some ("I\x27ve tentatively accepted the meeting invitation.")
  | "reschedule" => some ("I\x27ll look for alternative times for this meeting.")
  | _ => none

/-- The `||` fallback of `handleCalendarResponse` (voiceProcessor.js
line 213). -/
def calendarFallback : String := "I\x27ve processed your calendar response."

/-- Model of `handleCalendarResponse` (voiceProcessor.js lines 204-215). -/
def handleCalendarResponse (response : String) : Response :=
  { message := (responseMap response).getD calendarFallback }

/-- Model of `handleSchedule` (voiceProcessor.js lines 217-232): JS
truthiness makes each fragment conditional on the entity being
non-empty. -/
def handleSchedule (what whenAt withWhom whereAt : String) : Response :=
  let m := "I\x27m scheduling "
  let m := if what ≠ "" then m ++ "\"" ++ what ++ "\" " else m
  let m := if whenAt ≠ "" then m ++ "for " ++ whenAt ++ " " else m
  let m := if withWhom ≠ "" then m ++ "with " ++ withWhom ++ " " else m
  let m := if whereAt ≠ "" then m ++ "at " ++ whereAt ++ " " else m
  { message := m ++ ". Is that correct?" }

/-- Model of `handleReprioritize` (voiceProcessor.js lines 234-238). -/
def handleReprioritize (id : String) : Response :=
  { message := "I\x27ve reprioritized item " ++ id ++ "." }

/-- The fixed unknown-command message (voiceProcessor.js lines 131-135). -/
def unknownMessage : String :=
  "I\x27m sorry, I didn\x27t understand that command. Please try again."

/-- Model of `processCommand` (voiceProcessor.js lines 100-136), the
caller-facing dispatcher: parse, then switch on the command type. The two
collaborator fetch outcomes and the wall-clock moment enter as
parameters. -/
def processCommand (now : Nat) (command : String)
    (emailFetch : Except String (List Email)) (calendarFetch : Except String (List Event))
    (settings : Settings) : Response :=
  match parseCommand command with
  | .READ_EMAILS => handleReadEmails now emailFetch settings
  | .READ_AGENDA => handleReadAgenda now calendarFetch settings
  | .IGNORE => { message := "I\x27ll ignore that item." }
  | .RESPOND message => handleRespond message
  | .RESPOND_LATER time => handleRespondLater time settings
  | .SET_IMPORTANT isImportant => handleSetImportant isImportant
  | .CALENDAR_RESPONSE response => handleCalendarResponse response
  | .SCHEDULE what whenAt withWhom whereAt => handleSchedule what whenAt withWhom whereAt
  | .REPRIORITIZE id => handleReprioritize id
  | .UNKNOWN => { message := unknownMessage }

/-! Specification-side definitions and the verification theorems. -/

/-- Pairwise disjointness of the half-open intervals `[start, stop)` of an
event list. -/
def PairwiseDisjoint (events : List Event) : Prop :=
  events.Pairwise (fun a b => ¬(a.start < b.stop ∧ b.start < a.stop))

instance (events : List Event) : Decidable (PairwiseDisjoint events) :=
  inferInstanceAs (Decidable (events.Pairwise _))

/-- Index-based specification of overlap reporting, written from the
claim: every pair (i, j) with i < j whose half-open intervals intersect
(start_i < end_j and start_j < end_i), reported once with
overlapStart = max and overlapEnd = min of the bounds, listed in
outer/inner traversal order. -/
def specOverlaps (events : List Event) : List Conflict :=
  (List.range events.length).flatMap (fun i =>
    ((List.range events.length).filter (fun j => i < j)).filterMap (fun j =>
      (events[i]?).bind (fun a => (events[j]?).bind (fun b =>
        if a.start < b.stop ∧ b.start < a.stop then
          some { event1 := a, event2 := b, overlapStart := max a.start b.start,
                 overlapEnd := min a.stop b.stop }
        else none))))

theorem overlapOf_eq (a b : Event) :
    (if a.start < b.stop ∧ b.start < a.stop then
      some { event1 := a, event2 := b, overlapStart := max a.start b.start,
             overlapEnd := min a.stop b.stop }
    else none) = overlapOf a b := by
  by_cases h : a.start < b.stop ∧ b.start < a.stop
  · rw [if_pos h]
    unfold overlapOf
    have hb : (a.start < b.stop && b.start < a.stop) = true := by
      simp only [Bool.and_eq_true, decide_eq_true_eq]
      exact ⟨h.1, h.2⟩
    rw [if_pos hb]
    simp only [Option.some.injEq, Conflict.mk.injEq, true_and]
    constructor <;> split_ifs <;> omega
  · rw [if_neg h]
    unfold overlapOf
    have hb : ¬((a.start < b.stop && b.start < a.stop) = true) := by
      simp only [Bool.and_eq_true, decide_eq_true_eq]
      exact h
    rw [if_neg hb]

theorem filterMap_range_bind {α β : Type} (l : List α) (f : α → Option β) :
    (List.range l.length).filterMap (fun j => (l[j]?).bind f) = l.filterMap f := by
  induction l with
  | nil => rfl
  | cons e rest ih =>
    have hcomp : (fun j => ((e :: rest)[j]?).bind f) ∘ Nat.succ =
        fun j => (rest[j]?).bind f := by
      funext j
      simp
    have htail : List.filterMap (fun j => ((e :: rest)[j]?).bind f)
        (List.map Nat.succ (List.range rest.length)) = rest.filterMap f := by
      rw [List.filterMap_map, hcomp, ih]
    rw [List.length_cons, List.range_succ_eq_map, List.filterMap_cons]
    simp only [List.getElem?_cons_zero, Option.some_bind]
    cases hf : f e <;> simp [List.filterMap_cons, hf, htail]

theorem specOverlaps_cons (e : Event) (rest : List Event) :
    specOverlaps (e :: rest) = rest.filterMap (overlapOf e) ++ specOverlaps rest := by
  unfold specOverlaps
  rw [List.length_cons, List.range_succ_eq_map, List.flatMap_cons]
  congr 1
  · -- outer index i = 0: the inner traversal over j = 1..n yields `rest`
    rw [List.filter_cons_of_neg (by simp), List.filter_eq_self.mpr (by simp),
      List.filterMap_map]
    have hcomp : (fun j =>
        ((e :: rest)[0]?).bind (fun a => ((e :: rest)[j]?).bind (fun b =>
          if a.start < b.stop ∧ b.start < a.stop then
            some { event1 := a, event2 := b, overlapStart := max a.start b.start,
                   overlapEnd := min a.stop b.stop }
          else none))) ∘ Nat.succ =
        fun j => (rest[j]?).bind (overlapOf e) := by
      funext j
      simp only [Function.comp_apply, List.getElem?_cons_zero, Option.some_bind,
        List.getElem?_cons_succ]
      cases rest[j]? with
      | none => rfl
      | some b => simp only [Option.some_bind, overlapOf_eq]
    rw [hcomp, filterMap_range_bind]
  · -- outer indices i >= 1 reduce to the spec for `rest`
    rw [List.flatMap_map]
    congr 1
    funext i
    rw [List.filter_cons_of_neg (by simp)]
    have hfilter : List.filter (fun j => Nat.succ i < j)
        (List.map Nat.succ (List.range rest.length)) =
        List.map Nat.succ (List.filter (fun j => i < j) (List.range rest.length)) := by
      rw [List.filter_map]
      have hpred : ((fun j => decide (Nat.succ i < j)) ∘ Nat.succ) =
          fun j => decide (i < j) := by
        funext j
        simp [Nat.succ_lt_succ_iff]
      rw [hpred]
    rw [hfilter, List.filterMap_map]
    congr 1
    funext j
    simp only [Function.comp_apply, List.getElem?_cons_succ]

theorem findScheduleConflicts_eq_spec :
    ∀ events, findScheduleConflicts events = specOverlaps events
  | [] => rfl
  | e :: rest => by
    rw [specOverlaps_cons, ← findScheduleConflicts_eq_spec rest]
    rfl

theorem findScheduleConflicts_nil_of_disjoint :
    ∀ events, PairwiseDisjoint events → findScheduleConflicts events = []
  | [], _ => rfl
  | e :: rest, h => by
    obtain ⟨hhead, htail⟩ := List.pairwise_cons.mp h
    have h1 : rest.filterMap (overlapOf e) = [] := by
      rw [List.filterMap_eq_nil_iff]
      intro b hb
      rw [← overlapOf_eq, if_neg (hhead b hb)]
    show rest.filterMap (overlapOf e) ++ findScheduleConflicts rest = []
    rw [h1, findScheduleConflicts_nil_of_disjoint rest htail]
    rfl

/-! Concrete fixtures used by witnesses and counterexamples. -/

/-- Preferences with verbosity `everything` and no priority contacts. -/
def exSettingsEverything : Settings :=
  { priorityContacts := [], summaryLength := "everything", reminderDefaultTime := 10 }

/-- Preferences with verbosity `concise` and no priority contacts. -/
def exSettingsConcise : Settings :=
  { priorityContacts := [], summaryLength := "concise", reminderDefaultTime := 10 }

/-- An unimportant, read email. -/
def exEmailPlain : Email :=
  { sender := some { name := "Bob", email := "bob@x.com" }, subject := "lunch",
    body := "hi", isRead := true, isImportant := false, hasAttachments := false,
    timestamp := 1000 }

/-- An important, unread email with the same timestamp-day. -/
def exEmailImportant : Email :=
  { sender := some { name := "Ann", email := "ann@x.com" }, subject := "budget",
    body := "numbers", isRead := false, isImportant := true, hasAttachments := false,
    timestamp := 500 }

/-- An event from 1:00am to 2:00am on day zero. -/
def exEventOne : Event :=
  { title := "A", start := 3600000, stop := 7200000, location := none,
    description := none, attendees := [], responseStatus := "accepted",
    importance := none }

/-- An event from 1:30am to 2:30am on day zero, overlapping `exEventOne`. -/
def exEventTwo : Event :=
  { title := "B", start := 5400000, stop := 9000000, location := none,
    description := none, attendees := [], responseStatus := "accepted",
    importance := none }

/-- An event over [0, 1000), disjoint from `exEventLater`. -/
def exEventEarly : Event :=
  { title := "C", start := 0, stop := 1000, location := none,
    description := none, attendees := [], responseStatus := "accepted",
    importance := none }

/-- An event over [1000, 2000): half-open intervals make it disjoint from
`exEventEarly`. -/
def exEventLater : Event :=
  { title := "D", start := 1000, stop := 2000, location := none,
    description := none, attendees := [], responseStatus := "accepted",
    importance := none }

/-- C5: findScheduleConflicts reports exactly the pairs (i, j) with i < j
whose half-open intervals intersect, each once, with overlapStart the
maximum of the two starts and overlapEnd the minimum of the two ends, in
outer/inner index traversal order (the characterization `specOverlaps`),
and returns the empty sequence on every pairwise-disjoint input. -/
theorem C5_conflicts_spec :
    (∀ events, findScheduleConflicts events = specOverlaps events) ∧
    (∀ events, PairwiseDisjoint events → findScheduleConflicts events = []) :=
  ⟨findScheduleConflicts_eq_spec, findScheduleConflicts_nil_of_disjoint⟩

/-- Witness for C5 at a concrete disjoint pair of touching intervals. -/
theorem C5_witness :
    PairwiseDisjoint [exEventEarly, exEventLater] ∧
    findScheduleConflicts [exEventEarly, exEventLater] = [] :=
  ⟨by decide, C5_conflicts_spec.2 [exEventEarly, exEventLater] (by decide)⟩

/-- C7: a Calendar Source fetch failure during a READ_AGENDA command makes
the dispatcher return exactly the fixed apology message, for every
preferences value, every utterance parsed to READ_AGENDA, and every error;
the model returns it as a value, so no exception propagates. -/
theorem C7_agenda_fetch_failure (now : Nat) (cmd : String)
    (emailFetch : Except String (List Email)) (err : String) (s : Settings)
    (h : parseCommand cmd = .READ_AGENDA) :
    processCommand now cmd emailFetch (.error err) s =
      { message := "I\x27m sorry, I couldn\x27t read your agenda at this time. Please try again later." } := by
  unfold processCommand
  rw [h]
  rfl

/-- Witness for C7 at a concrete utterance and error. -/
theorem C7_witness :
    parseCommand ("read my agenda") = .READ_AGENDA ∧
    processCommand 0 ("read my agenda") (.ok []) (.error ("network failure")) exSettingsConcise =
      { message := "I\x27m sorry, I couldn\x27t read your agenda at this time. Please try again later." } :=
  ⟨by decide,
    C7_agenda_fetch_failure 0 ("read my agenda") (.ok []) ("network failure")
      exSettingsConcise (by decide)⟩

/-- C8: every utterance whose lower-cased, trimmed form contains
"read me my emails" parses to intent READ_EMAILS, regardless of
surrounding text. -/
theorem C8_read_emails_keyword (cmd : String)
    (h : includes (normalize cmd) ("read me my emails") = true) :
    parseCommand cmd = .READ_EMAILS := by
  unfold parseCommand
  simp only [h, Bool.true_or, if_true]

/-- Witness for C8 at a concrete utterance with surrounding text. -/
theorem C8_witness :
    includes (normalize ("Hey Jarvis, READ me my emails please!")) ("read me my emails") = true ∧
    parseCommand ("Hey Jarvis, READ me my emails please!") = .READ_EMAILS :=
  ⟨by decide, C8_read_emails_keyword ("Hey Jarvis, READ me my emails please!") (by decide)⟩

/-- Counterexample to C1 as stated: "decline maybe" contains both
sub-keywords, the claimed precedence demands response `decline`, but the
overwriting if-chain of voiceProcessor.js lines 59-62 produces `maybe`
(the later check wins). -/
theorem C1_counterexample :
    includes (normalize ("decline maybe")) ("decline") = true ∧
    includes (normalize ("decline maybe")) ("maybe") = true ∧
    parseCommand ("decline maybe") = .CALENDAR_RESPONSE ("maybe") ∧
    parseCommand ("decline maybe") ≠ .CALENDAR_RESPONSE ("decline") := by
  decide

/-- C1 (amended): for every utterance classified CALENDAR_RESPONSE the
response entity follows the reverse precedence
reschedule-phrase > maybe > decline > default accept, because the three
keyword checks are non-exclusive ifs overwriting one variable, so the
last matching check wins. -/
theorem C1_response_precedence (cmd : String) (r : String)
    (h : parseCommand cmd = .CALENDAR_RESPONSE r) :
    (includes (normalize cmd) ("find me a new time") = true → r = "reschedule") ∧
    (includes (normalize cmd) ("find me a new time") = false →
      includes (normalize cmd) ("maybe") = true → r = "maybe") ∧
    (includes (normalize cmd) ("find me a new time") = false →
      includes (normalize cmd) ("maybe") = false →
      includes (normalize cmd) ("decline") = true → r = "decline") ∧
    (includes (normalize cmd) ("find me a new time") = false →
      includes (normalize cmd) ("maybe") = false →
      includes (normalize cmd) ("decline") = false → r = "accept") := by
  simp only [parseCommand] at h
  split_ifs at h
  injection h with h
  subst h
  unfold calendarResponseOf
  refine ⟨?_, ?_, ?_, ?_⟩
  · intro hf
    simp [hf]
  · intro hf hm
    simp [hf, hm]
  · intro hf hm hd
    simp [hf, hm, hd]
  · intro hf hm hd
    simp [hf, hm, hd]

/-- Witness for C1 at the concrete utterance "maybe decline": both
sub-keywords present, no reschedule phrase, so the result is `maybe`. -/
theorem C1_witness :
    parseCommand ("maybe decline") = .CALENDAR_RESPONSE ("maybe") ∧ ("maybe" : String) = "maybe" :=
  ⟨by decide,
    (C1_response_precedence ("maybe decline") ("maybe") (by decide)).2.1 (by decide) (by decide)⟩

/-- C10: every CALENDAR_RESPONSE command the parser produces carries a
response among accept, decline, maybe, reschedule, hence the
responseMap lookup of the handler succeeds and its fallback message is
unreachable for parser-produced commands. -/
theorem C10_calendar_response_closed (cmd r : String)
    (h : parseCommand cmd = .CALENDAR_RESPONSE r) :
    (r = "accept" ∨ r = "decline" ∨ r = "maybe" ∨ r = "reschedule") ∧
    responseMap r ≠ none ∧
    handleCalendarResponse r ≠ { message := calendarFallback } := by
  simp only [parseCommand] at h
  split_ifs at h
  injection h with h
  subst h
  simp only [calendarResponseOf]
  split_ifs <;> decide

/-- Witness for C10 at a concrete reschedule utterance. -/
theorem C10_witness :
    (("reschedule" : String) = "accept" ∨ ("reschedule" : String) = "decline" ∨
      ("reschedule" : String) = "maybe" ∨ ("reschedule" : String) = "reschedule") ∧
    responseMap ("reschedule") ≠ none ∧
    handleCalendarResponse ("reschedule") ≠ { message := calendarFallback } :=
  C10_calendar_response_closed ("please find me a new time") ("reschedule") (by decide)

/-! The three comparator keys of the priority ranker, read off as a
lexicographic key, and the facts making the comparator a total preorder. -/

/-- The three sort keys of an item, ordered so that smaller sorts first:
priority-contact membership, importance flag, negated timestamp. -/
def keyOf (s : Settings) (a : Email) : Nat × Nat × Int :=
  ((if isPriorityContact s a then 0 else 1), (if a.isImportant then 0 else 1),
    -(a.timestamp : Int))

/-- Lexicographic comparison of key triples. -/
def lexLeKey : Nat × Nat × Int → Nat × Nat × Int → Prop
  | (p₁, i₁, t₁), (p₂, i₂, t₂) => p₁ < p₂ ∨ (p₁ = p₂ ∧ (i₁ < i₂ ∨ (i₁ = i₂ ∧ t₁ ≤ t₂)))

instance (k₁ k₂ : Nat × Nat × Int) : Decidable (lexLeKey k₁ k₂) := by
  rcases k₁ with ⟨p₁, i₁, t₁⟩
  rcases k₂ with ⟨p₂, i₂, t₂⟩
  exact inferInstanceAs (Decidable (_ ∨ _))

theorem itemLe_iff (s : Settings) (a b : Email) :
    itemLe s a b ↔ lexLeKey (keyOf s a) (keyOf s b) := by
  unfold itemLe compareItems keyOf lexLeKey
  cases hap : isPriorityContact s a <;> cases hbp : isPriorityContact s b <;>
    cases hai : a.isImportant <;> cases hbi : b.isImportant <;>
      simp [hap, hbp, hai, hbi]

theorem lexLeKey_refl (k : Nat × Nat × Int) : lexLeKey k k := by
  rcases k with ⟨p, i, t⟩
  simp [lexLeKey]

theorem lexLeKey_total (k₁ k₂ : Nat × Nat × Int) : lexLeKey k₁ k₂ ∨ lexLeKey k₂ k₁ := by
  rcases k₁ with ⟨p₁, i₁, t₁⟩
  rcases k₂ with ⟨p₂, i₂, t₂⟩
  simp [lexLeKey]
  omega

theorem lexLeKey_trans (k₁ k₂ k₃ : Nat × Nat × Int)
    (h₁ : lexLeKey k₁ k₂) (h₂ : lexLeKey k₂ k₃) : lexLeKey k₁ k₃ := by
  rcases k₁ with ⟨p₁, i₁, t₁⟩
  rcases k₂ with ⟨p₂, i₂, t₂⟩
  rcases k₃ with ⟨p₃, i₃, t₃⟩
  simp [lexLeKey] at *
  omega

theorem itemLe_total (s : Settings) (a b : Email) : itemLe s a b ∨ itemLe s b a := by
  rw [itemLe_iff, itemLe_iff]
  exact lexLeKey_total _ _

theorem itemLe_trans (s : Settings) (a b c : Email)
    (h₁ : itemLe s a b) (h₂ : itemLe s b c) : itemLe s a c := by
  rw [itemLe_iff] at *
  exact lexLeKey_trans _ _ _ h₁ h₂

/-- Two emails with identical sort keys (unimportant, same timestamp, no
priority sender) but different subjects: twins for the stability witness. -/
def exEmailTwinA : Email :=
  { sender := some { name := "Cam", email := "cam@x.com" }, subject := "first",
    body := "", isRead := true, isImportant := false, hasAttachments := false,
    timestamp := 700 }

/-- The second twin of `exEmailTwinA`. -/
def exEmailTwinB : Email :=
  { sender := some { name := "Dee", email := "dee@x.com" }, subject := "second",
    body := "", isRead := true, isImportant := false, hasAttachments := false,
    timestamp := 700 }

/-- C6: the ranker is a permutation of its input, sorted by the comparator,
stable (two items with equal keys keep their relative input order), and the
comparator is exactly the short-circuiting lexicographic comparison of the
three keys (priority contact, importance, recency). -/
theorem C6_rank_stable_sort (items : List Email) (s : Settings) :
    (prioritizeItems items s).Perm items ∧
    List.Pairwise (itemLe s) (prioritizeItems items s) ∧
    (∀ a b, keyOf s a = keyOf s b → [a, b].Sublist items →
      [a, b].Sublist (prioritizeItems items s)) ∧
    (∀ a b, itemLe s a b ↔ lexLeKey (keyOf s a) (keyOf s b)) := by
  haveI hT : IsTotal Email (itemLe s) := ⟨itemLe_total s⟩
  haveI hR : IsTrans Email (itemLe s) := ⟨fun a b c => itemLe_trans s a b c⟩
  refine ⟨List.perm_insertionSort _ _, List.sorted_insertionSort _ _, ?_,
    fun a b => itemLe_iff s a b⟩
  intro a b hk hsub
  exact List.pair_sublist_insertionSort ((itemLe_iff s a b).mpr (hk ▸ lexLeKey_refl _)) hsub

/-- Witness for C6: the twins keep their input order across a rank that
moves the important email to the front. -/
theorem C6_witness :
    keyOf exSettingsEverything exEmailTwinA = keyOf exSettingsEverything exEmailTwinB ∧
    [exEmailTwinA, exEmailTwinB].Sublist
      (prioritizeItems [exEmailTwinA, exEmailTwinB, exEmailImportant] exSettingsEverything) :=
  ⟨by decide,
    (C6_rank_stable_sort [exEmailTwinA, exEmailTwinB, exEmailImportant]
        exSettingsEverything).2.2.1 exEmailTwinA exEmailTwinB (by decide)
      (by decide)⟩

/-! The importance-then-recency order of the email summarizer is a total
preorder, so its insertion sort is sorted. -/

theorem irLe_total (a b : Email) : irLe a b ∨ irLe b a := by
  unfold irLe irCmp
  cases a.isImportant <;> cases b.isImportant <;> simp <;> omega

theorem irLe_trans (a b c : Email) (h₁ : irLe a b) (h₂ : irLe b c) : irLe a c := by
  unfold irLe irCmp at *
  cases hai : a.isImportant <;> cases hbi : b.isImportant <;> cases hci : c.isImportant <;>
    simp [hai, hbi, hci] at * <;> omega

/-- Claim-side description of the narrated subset: re-sort the full list by
(importance, recency), then truncate to the per-level limit, narrating all
of it for `everything`. -/
def specNarrated (emails : List Email) (s : Settings) : List Email :=
  let sorted := List.insertionSort irLe emails
  match s.summaryLength with
  | "concise" => sorted.take 3
  | "medium" => sorted.take 5
  | "detailed" => sorted.take 7
  | _ => sorted

/-- Counterexample to C3 as stated: with summaryLength `everything` the
code narrates the input order without the claimed re-sort, and with
`concise` and a single email the narrated size is 1, not exactly 3. -/
theorem C3_counterexample :
    (emailsToSummarize [exEmailPlain, exEmailImportant] exSettingsEverything ≠
      specNarrated [exEmailPlain, exEmailImportant] exSettingsEverything) ∧
    (emailsToSummarize [exEmailPlain] exSettingsConcise).length ≠ 3 := by
  decide

/-- C3 (amended): for concise/medium/detailed the narrated list is the
(importance, recency)-sorted list truncated to 3/5/7 — so its size is the
minimum of the limit and the email count, and it is sorted — while for
`everything` the input list is narrated unchanged, with no re-sort. -/
theorem C3_narrated_subset (emails : List Email) (s : Settings) :
    (s.summaryLength = "concise" →
      emailsToSummarize emails s = (List.insertionSort irLe emails).take 3 ∧
      (emailsToSummarize emails s).length = min 3 emails.length) ∧
    (s.summaryLength = "medium" →
      emailsToSummarize emails s = (List.insertionSort irLe emails).take 5 ∧
      (emailsToSummarize emails s).length = min 5 emails.length) ∧
    (s.summaryLength = "detailed" →
      emailsToSummarize emails s = (List.insertionSort irLe emails).take 7 ∧
      (emailsToSummarize emails s).length = min 7 emails.length) ∧
    (s.summaryLength = "everything" → emailsToSummarize emails s = emails) ∧
    (s.summaryLength ≠ "everything" → List.Pairwise irLe (emailsToSummarize emails s)) := by
  haveI hT : IsTotal Email irLe := ⟨irLe_total⟩
  haveI hR : IsTrans Email irLe := ⟨irLe_trans⟩
  refine ⟨?_, ?_, ?_, ?_, ?_⟩
  · intro h
    have h1 : emailsToSummarize emails s = (List.insertionSort irLe emails).take 3 := by
      simp only [emailsToSummarize, h, summaryLimit]
      rw [if_pos (by decide)]
    exact ⟨h1, by rw [h1, List.length_take, List.length_insertionSort]⟩
  · intro h
    have h1 : emailsToSummarize emails s = (List.insertionSort irLe emails).take 5 := by
      simp only [emailsToSummarize, h, summaryLimit]
      rw [if_pos (by decide)]
    exact ⟨h1, by rw [h1, List.length_take, List.length_insertionSort]⟩
  · intro h
    have h1 : emailsToSummarize emails s = (List.insertionSort irLe emails).take 7 := by
      simp only [emailsToSummarize, h, summaryLimit]
      rw [if_pos (by decide)]
    exact ⟨h1, by rw [h1, List.length_take, List.length_insertionSort]⟩
  · intro h
    simp only [emailsToSummarize, h]
    rw [if_neg (by simp)]
  · intro h
    unfold emailsToSummarize
    rw [if_pos h]
    cases hm : summaryLimit s.summaryLength with
    | some n =>
      exact List.Pairwise.sublist (List.take_sublist n _) (List.sorted_insertionSort _ _)
    | none =>
      exact List.sorted_insertionSort _ _

/-- Witness for C3 at a concrete concise two-email list. -/
theorem C3_witness :
    emailsToSummarize [exEmailPlain, exEmailImportant] exSettingsConcise =
      (List.insertionSort irLe [exEmailPlain, exEmailImportant]).take 3 ∧
    (emailsToSummarize [exEmailPlain, exEmailImportant] exSettingsConcise).length =
      min 3 ([exEmailPlain, exEmailImportant] : List Email).length :=
  (C3_narrated_subset [exEmailPlain, exEmailImportant] exSettingsConcise).1 rfl

/-- The opening sentence C9 claims: all three counts, unconditionally. -/
def specEmailOpening (emails : List Email) : String :=
  "You have " ++ toString emails.length ++ " emails in your inbox, " ++
    toString (unreadCount emails) ++ " unread" ++ ", with " ++
    toString (importantCount emails) ++ " marked as important" ++ "."

/-- The opening sentence the code emits when the important count is zero:
total and unread only. -/
def twoCountOpening (emails : List Email) : String :=
  "You have " ++ toString emails.length ++ " emails in your inbox, " ++
    toString (unreadCount emails) ++ " unread" ++ "."

/-- Counterexample to C9 as stated: with zero important emails the summary
does not open with the three-count sentence — the important-count clause
is omitted entirely. -/
theorem C9_counterexample :
    importantCount [exEmailPlain] = 0 ∧
    ¬ ∃ rest, generateEmailSummary [exEmailPlain] exSettingsConcise =
        specEmailOpening [exEmailPlain] ++ rest := by
  constructor
  · decide
  · rintro ⟨rest, heq⟩
    have hpre : (specEmailOpening [exEmailPlain]).data <+:
        (generateEmailSummary [exEmailPlain] exSettingsConcise).data :=
      ⟨rest.data, by rw [← String.data_append, heq]⟩
    revert hpre
    decide

/-- C9 (amended): the email summary opens with the three-count sentence
(total, unread, important) exactly when the important count is positive;
when it is zero the opening reports only the total and unread counts. -/
theorem C9_opening_counts (emails : List Email) (s : Settings) :
    (importantCount emails > 0 →
      ∃ rest, generateEmailSummary emails s = specEmailOpening emails ++ rest) ∧
    (importantCount emails = 0 →
      ∃ rest, generateEmailSummary emails s = twoCountOpening emails ++ rest) := by
  have hsplit : (". Would you like to hear about them?\n\n" : String) =
      "." ++ " Would you like to hear about them?\n\n" := by decide
  constructor <;> intro h
  · refine ⟨" Would you like to hear about them?\n\n" ++
      String.join ((emailsToSummarize emails s).enum.map (fun p => emailLine s p.1 p.2)) ++
      emailClosing, ?_⟩
    simp only [generateEmailSummary, emailOpening, specEmailOpening]
    rw [if_pos h, hsplit]
    simp only [String.append_assoc]
  · refine ⟨" Would you like to hear about them?\n\n" ++
      String.join ((emailsToSummarize emails s).enum.map (fun p => emailLine s p.1 p.2)) ++
      emailClosing, ?_⟩
    simp only [generateEmailSummary, emailOpening, twoCountOpening]
    rw [if_neg (by omega), hsplit]
    simp only [String.append_assoc]

/-- Witness for C9: two emails, one unread, one important, open with the
exact three-count sentence. -/
theorem C9_witness :
    specEmailOpening [exEmailPlain, exEmailImportant] =
      "You have 2 emails in your inbox, 1 unread, with 1 marked as important." ∧
    importantCount [exEmailPlain, exEmailImportant] > 0 ∧
    ∃ rest, generateEmailSummary [exEmailPlain, exEmailImportant] exSettingsConcise =
      specEmailOpening [exEmailPlain, exEmailImportant] ++ rest :=
  ⟨by decide, by decide,
    (C9_opening_counts [exEmailPlain, exEmailImportant] exSettingsConcise).1 (by decide)⟩

/-- Claim-side pipeline for READ_EMAILS: fetch, then rank, then summarize
(the composition C2 asserts), with the apology on fetch failure. -/
def specRankedReadEmails (now : Nat) (fetched : Except String (List Email))
    (s : Settings) : Response :=
  match fetched with
  | .ok emails => { message := summarizeWithAI now (.emails (prioritizeItems emails s)) s }
  | .error _ => { message := emailApology }

/-- Counterexample to C2 as stated: on a concrete READ_EMAILS command the
dispatcher's response differs from summarize after rank after fetch,
because the read handlers never invoke the ranker. -/
theorem C2_counterexample :
    processCommand 0 ("read my emails") (.ok [exEmailPlain, exEmailImportant]) (.ok [])
      exSettingsEverything ≠
    specRankedReadEmails 0 (.ok [exEmailPlain, exEmailImportant]) exSettingsEverything := by
  decide

/-- C2 (amended): for READ_EMAILS and READ_AGENDA commands the
dispatcher's response is the summarizer applied directly to the fetched
items — the priority ranker is not part of the pipeline — with the fixed
apology on fetch failure. -/
theorem C2_read_handlers_compose (now : Nat) (cmd : String)
    (emailFetch : Except String (List Email)) (calendarFetch : Except String (List Event))
    (s : Settings) :
    (parseCommand cmd = .READ_EMAILS →
      processCommand now cmd emailFetch calendarFetch s =
        match emailFetch with
        | .ok emails => { message := summarizeWithAI now (.emails emails) s }
        | .error _ => { message := emailApology }) ∧
    (parseCommand cmd = .READ_AGENDA →
      processCommand now cmd emailFetch calendarFetch s =
        match calendarFetch with
        | .ok events => { message := summarizeWithAI now (.calendar events) s }
        | .error _ => { message := agendaApology }) := by
  constructor <;> intro h <;> unfold processCommand <;> rw [h]
  · cases emailFetch <;> rfl
  · cases calendarFetch <;> rfl

/-- Witness for C2 at a concrete READ_EMAILS command with a successful
fetch. -/
theorem C2_witness :
    parseCommand ("read my emails") = .READ_EMAILS ∧
    processCommand 7 ("read my emails") (.ok [exEmailPlain]) (.ok []) exSettingsConcise =
      { message := summarizeWithAI 7 (.emails [exEmailPlain]) exSettingsConcise } :=
  ⟨by decide,
    (C2_read_handlers_compose 7 ("read my emails") (.ok [exEmailPlain]) (.ok [])
        exSettingsConcise).1 (by decide)⟩

/-- Counterexample to C4 as stated: the calendar summarizer reads the
wall clock — identical events and preferences yield different reports on
different days, so it is not a pure function of (items, preferences). -/
theorem C4_counterexample :
    summarizeWithAI 0 (.calendar [exEventOne]) exSettingsEverything ≠
    summarizeWithAI (2 * msPerDay) (.calendar [exEventOne]) exSettingsEverything := by
  decide

/-- C4 (amended): the email summarizer is a pure function of
(items, preferences): its output does not depend on the wall-clock moment
the summarizer entry point receives. The calendar summarizer instead
depends on that moment, as the counterexample shows. -/
theorem C4_email_summary_pure (now₁ now₂ : Nat) (items : List Email) (s : Settings) :
    summarizeWithAI now₁ (.emails items) s = summarizeWithAI now₂ (.emails items) s := rfl

end Jarvis
